import Mathlib

/-!
Shallow embedding of the KMS display sink (`src/cam/kms_sink.cpp`) of the
libcamera `cam` sample application, together with the hardware-topology
search used by `KMSSink::configurePipeline` and the 3-slot commit scheduler
of `KMSSink::consumeBuffer` / `KMSSink::requestComplete` / `KMSSink::stop`.

The DRM device layer (`DRM::Plane::supportsFormat`, `DRM::AtomicRequest`,
`DRM::Device::createFrameBuffer`, `DRM::Mode`) is an external collaborator of
this core; where its behaviour decides a claim it is modelled from the spec,
as noted on the corresponding definition. Hardware commit results and
buffer-import results are inputs (oracles) to the modelled operations,
since they come from the kernel.
-/

namespace KmsSink

/-- DRM fourcc code: four bytes packed little-endian, as in `drm_fourcc.h`
`fourcc_code(a, b, c, d)`. For distinct byte values, bitwise-or equals
addition. -/
def fourcc (a b c d : Nat) : Nat := a + b * 256 + c * 65536 + d * 16777216

/-- `DRM_FORMAT_XRGB8888` = fourcc of characters X, R, 2, 4. -/
def DRM_FORMAT_XRGB8888 : Nat := fourcc 88 82 50 52
/-- `DRM_FORMAT_XBGR8888` = fourcc of characters X, B, 2, 4. -/
def DRM_FORMAT_XBGR8888 : Nat := fourcc 88 66 50 52
/-- `DRM_FORMAT_ARGB8888` = fourcc of characters A, R, 2, 4. -/
def DRM_FORMAT_ARGB8888 : Nat := fourcc 65 82 50 52
/-- `DRM_FORMAT_ABGR8888` = fourcc of characters A, B, 2, 4. -/
def DRM_FORMAT_ABGR8888 : Nat := fourcc 65 66 50 52
/-- `DRM_FORMAT_RGBA8888` = fourcc of characters R, A, 2, 4. -/
def DRM_FORMAT_RGBA8888 : Nat := fourcc 82 65 50 52
/-- `DRM_FORMAT_BGRA8888` = fourcc of characters B, A, 2, 4. -/
def DRM_FORMAT_BGRA8888 : Nat := fourcc 66 65 50 52
/-- `DRM_FORMAT_RGBX8888` = fourcc of characters R, X, 2, 4. -/
def DRM_FORMAT_RGBX8888 : Nat := fourcc 82 88 50 52
/-- `DRM_FORMAT_BGRX8888` = fourcc of characters B, X, 2, 4. -/
def DRM_FORMAT_BGRX8888 : Nat := fourcc 66 88 50 52

/-- A pixel format is its fourcc code; the default-constructed (invalid)
`libcamera::PixelFormat` has fourcc 0. -/
def invalidFormat : Nat := 0

/-- `errno`-style error codes returned by the sink (negated on return). -/
def EPIPE : Int := 32
/-- `EINVAL` error code. -/
def EINVAL : Int := 22

/-! ### Output topology (external, read-only; spec section 3 and 6) -/

/-- DRM plane type (`DRM::Plane::Type`): only `TypePrimary` planes are
pipeline candidates. -/
inductive PlaneType where
  | primary
  | overlay
  | cursor
deriving DecidableEq, Repr

/-- A DRM plane: identity, type and the list of fourcc formats it accepts. -/
structure Plane where
  id : Nat
  planeType : PlaneType
  formats : List Nat
deriving DecidableEq, Repr

/-- Modelled from the spec: `DRM::Plane::supportsFormat` (implemented in the
repository's `drm.cpp`, which is not part of the given sources) is the
capability predicate `plane.supportsFormat(format) → bool` of the external
collaborator contract: whether the plane's declared format list contains the
requested fourcc. -/
def supportsFormat (p : Plane) (f : Nat) : Bool := p.formats.contains f

/-- A DRM CRTC and the planes it can drive. -/
structure Crtc where
  id : Nat
  planes : List Plane
deriving DecidableEq, Repr

/-- A DRM encoder and the CRTCs it can drive (`DRM::Encoder::possibleCrtcs`). -/
structure Encoder where
  possibleCrtcs : List Crtc
deriving DecidableEq, Repr

/-- A display mode: resolution plus a refresh-rate field that the sink never
inspects (`DRM::Mode` wraps `drmModeModeInfo`; only `hdisplay`/`vdisplay`
are read by `KMSSink::configure`). -/
structure Mode where
  hdisplay : Nat
  vdisplay : Nat
  vrefresh : Nat
deriving DecidableEq, Repr

/-- A DRM connector: the encoders reachable from it and its supported modes. -/
structure Connector where
  id : Nat
  encoders : List Encoder
  modes : List Mode
deriving DecidableEq, Repr

/-! ### Format fallback and pipeline search (`KMSSink::configurePipeline`) -/

/-- The alpha-to-opaque fallback of `configurePipeline`'s `switch (format)`:
for the four alpha-carrying formats the X-prefixed variant; for every other
format `xFormat` stays default-constructed, i.e. the invalid format 0. -/
def xFormat (f : Nat) : Nat :=
  if f = DRM_FORMAT_ABGR8888 then DRM_FORMAT_XBGR8888
  else if f = DRM_FORMAT_ARGB8888 then DRM_FORMAT_XRGB8888
  else if f = DRM_FORMAT_BGRA8888 then DRM_FORMAT_BGRX8888
  else if f = DRM_FORMAT_RGBA8888 then DRM_FORMAT_RGBX8888
  else invalidFormat

/-- Innermost loop of `configurePipeline`: scan a CRTC's planes in order,
skip non-primary planes, try the requested format then the fallback, and
return the first hit. -/
def findInPlanes (fmt xfmt : Nat) (crtc : Crtc) : List Plane → Option (Crtc × Plane × Nat)
  | [] => none
  | p :: ps =>
    if p.planeType = PlaneType.primary then
      if supportsFormat p fmt then some (crtc, p, fmt)
      else if supportsFormat p xfmt then some (crtc, p, xfmt)
      else findInPlanes fmt xfmt crtc ps
    else findInPlanes fmt xfmt crtc ps

/-- Middle loop of `configurePipeline`: scan an encoder's possible CRTCs in
order. -/
def findInCrtcs (fmt xfmt : Nat) : List Crtc → Option (Crtc × Plane × Nat)
  | [] => none
  | c :: cs =>
    match findInPlanes fmt xfmt c c.planes with
    | some r => some r
    | none => findInCrtcs fmt xfmt cs

/-- Outer loop of `configurePipeline`: scan the connector's encoders in
order. -/
def findInEncoders (fmt xfmt : Nat) : List Encoder → Option (Crtc × Plane × Nat)
  | [] => none
  | e :: es =>
    match findInCrtcs fmt xfmt e.possibleCrtcs with
    | some r => some r
    | none => findInEncoders fmt xfmt es

/-- `KMSSink::configurePipeline`: find the first (crtc, primary plane,
format) triple reachable from the connector that accepts the requested
format or its alpha-stripped fallback; `-EPIPE` when none does. -/
def configurePipeline (conn : Connector) (format : Nat) : Except Int (Crtc × Plane × Nat) :=
  match findInEncoders format (xFormat format) conn.encoders with
  | some r => Except.ok r
  | none => Except.error (-EPIPE)

/-- The ordered list of all satisfying (crtc, plane, format) candidates of
one CRTC's plane list, in enumeration order (specification of the search,
used to state the first-match property of claim C5). -/
def planeCands (fmt xfmt : Nat) (crtc : Crtc) : List Plane → List (Crtc × Plane × Nat)
  | [] => []
  | p :: ps =>
    if p.planeType = PlaneType.primary then
      if supportsFormat p fmt then (crtc, p, fmt) :: planeCands fmt xfmt crtc ps
      else if supportsFormat p xfmt then (crtc, p, xfmt) :: planeCands fmt xfmt crtc ps
      else planeCands fmt xfmt crtc ps
    else planeCands fmt xfmt crtc ps

/-- All satisfying candidates of a CRTC list, in enumeration order. -/
def crtcCands (fmt xfmt : Nat) : List Crtc → List (Crtc × Plane × Nat)
  | [] => []
  | c :: cs => planeCands fmt xfmt c c.planes ++ crtcCands fmt xfmt cs

/-- All satisfying candidates reachable from an encoder list, in enumeration
order. -/
def encoderCands (fmt xfmt : Nat) : List Encoder → List (Crtc × Plane × Nat)
  | [] => []
  | e :: es => crtcCands fmt xfmt e.possibleCrtcs ++ encoderCands fmt xfmt es

/-- All satisfying candidates of the whole connector, in encoder/CRTC/plane
enumeration order. -/
def allCands (conn : Connector) (format : Nat) : List (Crtc × Plane × Nat) :=
  encoderCands format (xFormat format) conn.encoders

/-! ### Mode matching and `KMSSink::configure` -/

/-- The predicate of `configure`'s `std::find_if` over the connector modes:
exact (width, height) equality, nothing else inspected. -/
def modeMatches (w h : Nat) (m : Mode) : Bool :=
  m.hdisplay == w && m.vdisplay == h

/-- The pipeline selected by a successful `KMSSink::configure`. -/
structure PipeConfig where
  crtc : Crtc
  plane : Plane
  format : Nat
  mode : Mode
  width : Nat
  height : Nat
  stride : Nat
deriving DecidableEq, Repr

/-- `KMSSink::configure`: resolve the pipeline for the requested pixel
format, then bind the first connector mode whose resolution equals the
requested size exactly; `-EINVAL` when no mode matches. -/
def configure (conn : Connector) (format w h stride : Nat) : Except Int PipeConfig :=
  match configurePipeline conn format with
  | Except.error e => Except.error e
  | Except.ok (c, p, f) =>
    match conn.modes.find? (modeMatches w h) with
    | none => Except.error (-EINVAL)
    | some m => Except.ok ⟨c, p, f, m, w, h, stride⟩

/-! ### Atomic requests and the commit scheduler -/

/-- Target of an atomic property: the connector, a CRTC or a plane, by id. -/
inductive Target where
  | connector (id : Nat)
  | crtc (id : Nat)
  | plane (id : Nat)
deriving DecidableEq, Repr

/-- One `(target, propertyName, value)` triple added by
`DRM::AtomicRequest::addProperty`. -/
structure DrmProp where
  target : Target
  name : String
  value : Nat
deriving DecidableEq, Repr

/-- Flags passed to `DRM::AtomicRequest::commit`: `FlagAsync` and
`FlagAllowModeset`. -/
structure CommitFlags where
  async : Bool
  allowModeset : Bool
deriving DecidableEq, Repr

/-- A `KMSSink::Request`: the atomic request (identified by its allocation
id, standing for the C++ pointer compared in `requestComplete`), its
property list, and the frame buffer it presents. -/
structure KMSRequest where
  reqId : Nat
  props : List DrmProp
  buffer : Nat
deriving DecidableEq, Repr

/-- A hardware commit submission observed at the DRM boundary: the submitted
properties, the commit flags, and the kernel's return value. -/
structure Submitted where
  props : List DrmProp
  flags : CommitFlags
  ret : Int
deriving DecidableEq, Repr

/-- The pipeline data `consumeBuffer` and `stop` read from the configured
sink: `connector_`, `crtc_`, `plane_` ids, the selected mode's resolution
and the blob id `mode_->toBlob(&dev_)` yields. -/
structure SinkCfg where
  connectorId : Nat
  crtcId : Nat
  planeId : Nat
  hdisplay : Nat
  vdisplay : Nat
  modeBlob : Nat
deriving DecidableEq, Repr

/-- The mutable state of a `KMSSink`: the bound-buffer cache `buffers_`
(frame-buffer identity to DRM framebuffer id) and the three scheduler slots
`pending_`, `queued_`, `active_`; `nextReqId` models the allocation identity
of the next `new DRM::AtomicRequest`. -/
structure KMSSink where
  cfg : SinkCfg
  buffers : List (Nat × Nat)
  pending : Option KMSRequest
  queued : Option KMSRequest
  active : Option KMSRequest
  nextReqId : Nat
deriving DecidableEq, Repr

/-- A freshly constructed sink over a configuration: empty cache, all three
slots empty. -/
def initSink (cfg : SinkCfg) : KMSSink :=
  ⟨cfg, [], none, none, none, 0⟩

/-- Lookup in the bound-buffer cache (`buffers_.find(buffer)`). -/
def lookupBuffer (m : List (Nat × Nat)) (b : Nat) : Option Nat :=
  (m.find? (fun e => e.1 == b)).map (fun e => e.2)

/-- `KMSSink::mapBuffer`: import the frame buffer as a DRM framebuffer via
`dev_.createFrameBuffer` (external; its result — the framebuffer id, or
failure — is the `importResult` input) and cache it on success
(`std::map::emplace` inserts only when the key is absent). The method
returns `void` and prints nothing; the second component is the (always
empty) list of messages it emits. -/
def mapBuffer (s : KMSSink) (buffer : Nat) (importResult : Option Nat) :
    KMSSink × List String :=
  match importResult with
  | none => (s, [])
  | some fbId =>
    if (lookupBuffer s.buffers buffer).isSome then (s, [])
    else ({ s with buffers := s.buffers ++ [(buffer, fbId)] }, [])

/-- The connector/CRTC/plane enable and geometry properties added by
`consumeBuffer` on the first frame of a session, in source order. -/
def enableProps (cfg : SinkCfg) : List DrmProp :=
  [⟨Target.connector cfg.connectorId, "CRTC_ID", cfg.crtcId⟩,
   ⟨Target.crtc cfg.crtcId, "ACTIVE", 1⟩,
   ⟨Target.crtc cfg.crtcId, "MODE_ID", cfg.modeBlob⟩,
   ⟨Target.plane cfg.planeId, "CRTC_ID", cfg.crtcId⟩,
   ⟨Target.plane cfg.planeId, "SRC_X", 0⟩,
   ⟨Target.plane cfg.planeId, "SRC_Y", 0⟩,
   ⟨Target.plane cfg.planeId, "SRC_W", cfg.hdisplay <<< 16⟩,
   ⟨Target.plane cfg.planeId, "SRC_H", cfg.vdisplay <<< 16⟩,
   ⟨Target.plane cfg.planeId, "CRTC_X", 0⟩,
   ⟨Target.plane cfg.planeId, "CRTC_Y", 0⟩,
   ⟨Target.plane cfg.planeId, "CRTC_W", cfg.hdisplay⟩,
   ⟨Target.plane cfg.planeId, "CRTC_H", cfg.vdisplay⟩]

/-- `KMSSink::consumeBuffer`. Returns the boolean returned to the caller
(`true`: the sink is done with the buffer; `false`: the sink holds it for
display), the new sink state, and the commit submitted to the hardware, if
any. `commitRet` is the kernel's return value for that commit (an oracle;
the code only logs a negative value and proceeds). -/
def consumeBuffer (s : KMSSink) (buffer : Nat) (commitRet : Int) :
    Bool × KMSSink × Option Submitted :=
  if s.pending.isSome then (true, s, none)
  else
    match lookupBuffer s.buffers buffer with
    | none => (true, s, none)
    | some fbId =>
      let firstFrame := s.active.isNone && s.queued.isNone
      let props := ⟨Target.plane s.cfg.planeId, "FB_ID", fbId⟩ ::
        (if firstFrame then enableProps s.cfg else [])
      let flags : CommitFlags := ⟨true, firstFrame⟩
      let req : KMSRequest := ⟨s.nextReqId, props, buffer⟩
      if s.queued.isNone then
        (false,
         { s with queued := some req, pending := none, nextReqId := s.nextReqId + 1 },
         some ⟨props, flags, commitRet⟩)
      else
        (false,
         { s with pending := some req, nextReqId := s.nextReqId + 1 },
         none)

/-- First phase of `KMSSink::requestComplete`: emit the active request's
buffer as released (if any) and promote the queued request to active,
leaving `queued` empty. Returns the new state and the released buffers. -/
def completeQueued (s : KMSSink) : KMSSink × List Nat :=
  ({ s with active := s.queued, queued := none },
   match s.active with
   | some a => [a.buffer]
   | none => [])

/-- Second phase of `KMSSink::requestComplete`: if a pending request exists,
commit it with `FlagAsync` only and promote it to queued. `commitRet` is the
kernel's return value (ignored by the code). Returns the new state and the
submitted commit, if any. -/
def queuePending (s : KMSSink) (commitRet : Int) : KMSSink × Option Submitted :=
  match s.pending with
  | some p =>
    ({ s with queued := some p, pending := none },
     some ⟨p.props, ⟨true, false⟩, commitRet⟩)
  | none => (s, none)

/-- `KMSSink::requestComplete`, the completion handler: `reqId` identifies
the completed `DRM::AtomicRequest` (the pointer delivered by the signal).
`none` models the `assert(queued_ && queued_->request_.get() == request)`
failure — a fatal fault. Otherwise returns the new state, the buffers
released to the producer, and the commit submitted for a pending request. -/
def requestComplete (s : KMSSink) (reqId : Nat) (commitRet : Int) :
    Option (KMSSink × List Nat × Option Submitted) :=
  match s.queued with
  | none => none
  | some q =>
    if q.reqId = reqId then
      let r1 := completeQueued s
      let r2 := queuePending r1.1 commitRet
      some (r2.1, r1.2, r2.2)
    else none

/-- The disable transaction built by `KMSSink::stop`, in source order. -/
def disableProps (cfg : SinkCfg) : List DrmProp :=
  [⟨Target.connector cfg.connectorId, "CRTC_ID", 0⟩,
   ⟨Target.crtc cfg.crtcId, "ACTIVE", 0⟩,
   ⟨Target.crtc cfg.crtcId, "MODE_ID", 0⟩,
   ⟨Target.plane cfg.planeId, "CRTC_ID", 0⟩,
   ⟨Target.plane cfg.planeId, "FB_ID", 0⟩]

/-- `KMSSink::stop`: commit the disable transaction with
`FlagAllowModeset`; on failure return the error with the state untouched;
on success drop all three slots, clear the buffer cache and return 0 (the
base `FrameSink::stop`). No release notification is ever emitted (third
component). The last component is the commit observed at the DRM boundary. -/
def stop (s : KMSSink) (commitRet : Int) : Int × KMSSink × List Nat × Submitted :=
  let sub : Submitted := ⟨disableProps s.cfg, ⟨false, true⟩, commitRet⟩
  if commitRet < 0 then (commitRet, s, [], sub)
  else
    (0,
     { s with pending := none, queued := none, active := none, buffers := [] },
     [], sub)

/-! ### Traces of scheduler operations -/

/-- One scheduler operation together with its hardware oracle values. -/
inductive Op where
  | submit (buffer : Nat) (commitRet : Int)
  | complete (reqId : Nat) (commitRet : Int)
deriving DecidableEq, Repr

/-- State transition of one operation (an assertion failure in
`requestComplete` aborts the program; the trace semantics keeps the state). -/
def stepOp (s : KMSSink) : Op → KMSSink
  | Op.submit b r => (consumeBuffer s b r).2.1
  | Op.complete rid r =>
    match requestComplete s rid r with
    | some out => out.1
    | none => s

/-- Run a list of operations from a state. -/
def runOps (s : KMSSink) : List Op → KMSSink
  | [] => s
  | op :: ops => runOps (stepOp s op) ops

/-- Number of transactions held by a slot. -/
def slotCount : Option KMSRequest → Nat
  | none => 0
  | some _ => 1

/-! ### Concrete fixtures used by witnesses and counterexamples -/

/-- A concrete pipeline configuration. -/
def cfg0 : SinkCfg := ⟨10, 20, 30, 1920, 1080, 99⟩

/-- A configured sink with two bound buffers (7 and 8) and empty slots. -/
def sink0 : KMSSink := { initSink cfg0 with buffers := [(7, 70), (8, 80)] }

/-- `sink0` with an occupied pending slot. -/
def sinkPend : KMSSink := { sink0 with pending := some ⟨5, [], 9⟩ }

/-- `sink0` with an occupied queued slot. -/
def sinkQ : KMSSink := { sink0 with queued := some ⟨5, [], 9⟩ }

/-- `sink0` with an occupied active slot and empty queued slot. -/
def sinkAct : KMSSink := { sink0 with active := some ⟨4, [], 6⟩ }

/-- The sink state after `submitFrame(A)` on `sink0` (buffer 7). -/
def sinkA : KMSSink := (consumeBuffer sink0 7 0).2.1

/-- The sink state after `submitFrame(A)` then `submitFrame(B)` (buffer 8). -/
def sinkAB : KMSSink := (consumeBuffer sinkA 8 0).2.1

/-- The sink state after `onCommitComplete(A)` on `sinkAB` (A's request has
allocation id 0). -/
def sinkABc : KMSSink := stepOp sinkAB (Op.complete 0 0)

/-- The sink state after the subsequent `onCommitComplete(B)` (B's request
has allocation id 1). -/
def sinkABcc : KMSSink := stepOp sinkABc (Op.complete 1 0)

/-- A concrete primary plane supporting only `XRGB8888`. -/
def plane0 : Plane := ⟨30, PlaneType.primary, [DRM_FORMAT_XRGB8888]⟩

/-- A concrete CRTC driving `plane0`. -/
def crtc0 : Crtc := ⟨20, [plane0]⟩

/-- The 1920x1080 mode of the concrete connector. -/
def mode0 : Mode := ⟨1920, 1080, 60⟩

/-- A concrete connector reaching `crtc0` through one encoder, with a single
1920x1080 mode. -/
def conn0 : Connector := ⟨10, [⟨[crtc0]⟩], [mode0]⟩

/-! ## Claims -/

/-- C4: if `submitFrame` (`consumeBuffer`) is called while the pending slot
is already occupied, the new frame is dropped: the caller is told the frame
was consumed by the sink (return value `true`, not an error), no commit is
submitted, and the whole sink state — in particular the pending, queued and
active slots — is left unchanged. -/
theorem claim_C4 (s : KMSSink) (b : Nat) (r : Int) (h : s.pending.isSome = true) :
    consumeBuffer s b r = (true, s, none) := by
  unfold consumeBuffer
  simp [h]

/-- Witness for C4 at a concrete sink whose pending slot is occupied. -/
theorem claim_C4_witness : consumeBuffer sinkPend 7 0 = (true, sinkPend, none) :=
  claim_C4 sinkPend 7 0 (by rfl)

/-- C1 counterexample: on `sink0` (all slots empty, buffer 7 bound), a
`submitFrame` whose hardware commit fails (`commit` returns -5) does not
leave the scheduler state unchanged: the failed transaction IS installed
into the queued slot (and the caller is told the frame was consumed), so the
claim that the failed transaction is discarded and a later frame retries the
full mode-set path is false at this input. -/
theorem claim_C1_counterexample :
    (consumeBuffer sink0 7 (-5)).2.1.queued =
      some ⟨0, ⟨Target.plane 30, "FB_ID", 70⟩ :: enableProps cfg0, 7⟩ ∧
    (consumeBuffer sink0 7 (-5)).2.1 ≠ sink0 ∧
    (consumeBuffer sink0 7 (-5)).1 = false := by
  refine ⟨by decide, by decide, by decide⟩

/-- C1 (amended): a hardware commit failure during `submitFrame` is only
logged; the commit return value has no influence on the resulting scheduler
state or on the value returned to the caller, and with the queued slot empty
the transaction is installed into `queued` exactly as on success — a
subsequent frame therefore does not retry the mode-set path. -/
theorem claim_C1 (s : KMSSink) (b fbId : Nat) (r : Int)
    (h1 : s.pending = none) (h2 : lookupBuffer s.buffers b = some fbId)
    (h3 : s.queued = none) (_hr : r < 0) :
    consumeBuffer s b r =
      (false,
       { s with
         queued := some ⟨s.nextReqId,
           ⟨Target.plane s.cfg.planeId, "FB_ID", fbId⟩ ::
             (if s.active.isNone then enableProps s.cfg else []), b⟩,
         pending := none,
         nextReqId := s.nextReqId + 1 },
       some ⟨⟨Target.plane s.cfg.planeId, "FB_ID", fbId⟩ ::
               (if s.active.isNone then enableProps s.cfg else []),
             ⟨true, s.active.isNone⟩, r⟩) ∧
    (∀ r' : Int, (consumeBuffer s b r').1 = (consumeBuffer s b r).1 ∧
       (consumeBuffer s b r').2.1 = (consumeBuffer s b r).2.1) := by
  constructor
  · unfold consumeBuffer
    simp [h1, h2, h3]
  · intro r'
    unfold consumeBuffer
    simp [h1, h2, h3]

/-- Witness for C1 (amended) at `sink0` with buffer 7 and a failing commit. -/
theorem claim_C1_witness :
    consumeBuffer sink0 7 (-5) =
      (false,
       { sink0 with
         queued := some ⟨0, ⟨Target.plane 30, "FB_ID", 70⟩ ::
             (if sink0.active.isNone then enableProps sink0.cfg else []), 7⟩,
         pending := none,
         nextReqId := 1 },
       some ⟨⟨Target.plane 30, "FB_ID", 70⟩ ::
               (if sink0.active.isNone then enableProps sink0.cfg else []),
             ⟨true, sink0.active.isNone⟩, (-5)⟩) :=
  (claim_C1 sink0 7 70 (-5) (by rfl) (by rfl) (by rfl) (by decide)).1

/-- C9 counterexample: on `sink0`, a failed import of buffer 9 (the external
`createFrameBuffer` returned null) produces no report of any kind to the
caller — `mapBuffer` is `void`, emits no message, and leaves the state
unchanged — so the part of the claim stating the failure is reported to the
caller is false at this input (the buffer is indeed not cached). -/
theorem claim_C9_counterexample :
    mapBuffer sink0 9 none = (sink0, []) ∧
    lookupBuffer (mapBuffer sink0 9 none).1.buffers 9 = none := by
  refine ⟨by rfl, by rfl⟩

/-- C9 (amended): a failure to import a frame buffer as a display object is
silent — `mapBuffer` returns without caching the buffer and without
reporting anything — and when that buffer is later submitted, the frame is
skipped (`consumeBuffer` returns `true` with the state unchanged and no
commit submitted) while the session continues. -/
theorem claim_C9 (s : KMSSink) (b : Nat) (r : Int)
    (hb : lookupBuffer s.buffers b = none) (hp : s.pending = none) :
    mapBuffer s b none = (s, []) ∧
    lookupBuffer (mapBuffer s b none).1.buffers b = none ∧
    consumeBuffer s b r = (true, s, none) := by
  refine ⟨rfl, by simpa using hb, ?_⟩
  unfold consumeBuffer
  simp [hp, hb]

/-- Witness for C9 (amended) at `sink0` with the unbound buffer 9. -/
theorem claim_C9_witness :
    mapBuffer sink0 9 none = (sink0, []) ∧
    lookupBuffer (mapBuffer sink0 9 none).1.buffers 9 = none ∧
    consumeBuffer sink0 9 0 = (true, sink0, none) :=
  claim_C9 sink0 9 0 (by rfl) (by rfl)

/-- C10: when the disable commit succeeds, `stop()` submits the explicit
atomic disable transaction (connector/CRTC/plane off, with the mode-set
flag), discards the pending, queued and active transactions, emits no
release notification, and clears the bound-buffer cache, leaving all slots
and the cache exactly as in a freshly constructed sink. -/
theorem claim_C10 (s : KMSSink) (r : Int) (h : 0 ≤ r) :
    stop s r =
      (0,
       { s with pending := none, queued := none, active := none, buffers := [] },
       [], ⟨disableProps s.cfg, ⟨false, true⟩, r⟩) ∧
    (stop s r).2.1.pending = (initSink s.cfg).pending ∧
    (stop s r).2.1.queued = (initSink s.cfg).queued ∧
    (stop s r).2.1.active = (initSink s.cfg).active ∧
    (stop s r).2.1.buffers = (initSink s.cfg).buffers := by
  have hr : ¬ r < 0 := not_lt.mpr h
  unfold stop
  simp [hr, initSink]

/-- Witness for C10 on a sink with occupied slots and a succeeding commit. -/
theorem claim_C10_witness :
    stop sinkAB 0 =
      (0,
       { sinkAB with pending := none, queued := none, active := none, buffers := [] },
       [], ⟨disableProps sinkAB.cfg, ⟨false, true⟩, 0⟩) ∧
    (stop sinkAB 0).2.1.pending = (initSink sinkAB.cfg).pending ∧
    (stop sinkAB 0).2.1.queued = (initSink sinkAB.cfg).queued ∧
    (stop sinkAB 0).2.1.active = (initSink sinkAB.cfg).active ∧
    (stop sinkAB 0).2.1.buffers = (initSink sinkAB.cfg).buffers :=
  claim_C10 sinkAB 0 (by decide)

/-- C8: the connector/CRTC/plane enable and geometry properties and the
allow-mode-set commit flag are added to a `submitFrame` transaction exactly
when both the active and queued slots are empty (the very first frame);
every steady-state frame — whether submitted immediately (queued empty,
active occupied) or parked in pending (queued occupied) — carries only the
plane's `FB_ID` property, and an immediate submission uses the fast async
flag without allow-mode-set. -/
theorem claim_C8 (s : KMSSink) (b fbId : Nat) (r : Int)
    (hp : s.pending = none) (hb : lookupBuffer s.buffers b = some fbId) :
    (s.active = none → s.queued = none →
      consumeBuffer s b r =
        (false,
         { s with
           queued := some ⟨s.nextReqId,
             ⟨Target.plane s.cfg.planeId, "FB_ID", fbId⟩ :: enableProps s.cfg, b⟩,
           pending := none,
           nextReqId := s.nextReqId + 1 },
         some ⟨⟨Target.plane s.cfg.planeId, "FB_ID", fbId⟩ :: enableProps s.cfg,
               ⟨true, true⟩, r⟩)) ∧
    (s.active.isSome = true → s.queued = none →
      consumeBuffer s b r =
        (false,
         { s with
           queued := some ⟨s.nextReqId,
             [⟨Target.plane s.cfg.planeId, "FB_ID", fbId⟩], b⟩,
           pending := none,
           nextReqId := s.nextReqId + 1 },
         some ⟨[⟨Target.plane s.cfg.planeId, "FB_ID", fbId⟩], ⟨true, false⟩, r⟩)) ∧
    (s.queued.isSome = true →
      consumeBuffer s b r =
        (false,
         { s with
           pending := some ⟨s.nextReqId,
             [⟨Target.plane s.cfg.planeId, "FB_ID", fbId⟩], b⟩,
           nextReqId := s.nextReqId + 1 },
         none)) := by
  refine ⟨?_, ?_, ?_⟩
  · intro ha hq
    unfold consumeBuffer
    simp [hp, hb, ha, hq]
  · intro ha hq
    unfold consumeBuffer
    cases hA : s.active with
    | none => rw [hA] at ha; cases ha
    | some a => simp [hp, hb, hA, hq]
  · intro hq
    unfold consumeBuffer
    cases hQ : s.queued with
    | none => rw [hQ] at hq; cases hq
    | some q =>
      simp [hp, hb, hQ]

/-- Witness for C8: the first-frame branch at `sink0` with buffer 7. -/
theorem claim_C8_witness :
    consumeBuffer sink0 7 0 =
      (false,
       { sink0 with
         queued := some ⟨0, ⟨Target.plane 30, "FB_ID", 70⟩ :: enableProps sink0.cfg, 7⟩,
         pending := none,
         nextReqId := 1 },
       some ⟨⟨Target.plane 30, "FB_ID", 70⟩ :: enableProps sink0.cfg,
             ⟨true, true⟩, 0⟩) :=
  (claim_C8 sink0 7 70 0 (by rfl) (by rfl)).1 (by rfl) (by rfl)

/-- C2: `requestComplete` accepts the notification exactly when it matches
the current queued transaction (any mismatch is the fatal `assert`), and
then releases the active transaction's buffer if any, promotes queued to
active, and submits and promotes the pending transaction if any, leaving
pending empty. Moreover, in the concrete scenario `submitFrame(A)`;
`submitFrame(B)`; `onCommitComplete(A)` makes A active and B queued with no
buffer released, and the subsequent `onCommitComplete(B)` releases A's
buffer (7) and makes B active. -/
theorem claim_C2 :
    (∀ (s : KMSSink) (rid : Nat) (r : Int),
       (requestComplete s rid r).isSome = true ↔
         ∃ q, s.queued = some q ∧ q.reqId = rid) ∧
    (∀ (s : KMSSink) (q : KMSRequest) (rid : Nat) (r : Int),
       s.queued = some q → q.reqId = rid →
       requestComplete s rid r = some
         ({ s with active := some q, queued := s.pending, pending := none },
          (match s.active with | some a => [a.buffer] | none => []),
          (match s.pending with
           | some p => some ⟨p.props, ⟨true, false⟩, r⟩
           | none => none))) ∧
    (sinkA.queued.map (fun q => q.buffer) = some 7 ∧
     sinkA.pending = none ∧ sinkA.active = none ∧
     sinkAB.pending.map (fun q => q.buffer) = some 8 ∧
     sinkAB.queued = sinkA.queued ∧
     requestComplete sinkAB 0 0 =
       some (sinkABc, [], some ⟨[⟨Target.plane 30, "FB_ID", 80⟩], ⟨true, false⟩, 0⟩) ∧
     sinkABc.active.map (fun q => q.buffer) = some 7 ∧
     sinkABc.queued.map (fun q => q.buffer) = some 8 ∧
     sinkABc.pending = none ∧
     requestComplete sinkABc 1 0 = some (sinkABcc, [7], none) ∧
     sinkABcc.active.map (fun q => q.buffer) = some 8) := by
  refine ⟨?_, ?_, ?_⟩
  · intro s rid r
    cases hq : s.queued with
    | none => simp [requestComplete, hq]
    | some q =>
      by_cases h : q.reqId = rid
      · simp [requestComplete, hq, h]
      · simp [requestComplete, hq, h]
  · intro s q rid r hq hr
    cases hp : s.pending with
    | none => simp [requestComplete, completeQueued, queuePending, hq, hr, hp]
    | some p => simp [requestComplete, completeQueued, queuePending, hq, hr, hp]
  · decide

/-- Witness for C2: the completion-effects clause applied to a concrete sink
with an occupied queued slot and a matching notification. -/
theorem claim_C2_witness :
    requestComplete sinkQ 5 0 = some
      ({ sinkQ with active := some ⟨5, [], 9⟩, queued := sinkQ.pending, pending := none },
       (match sinkQ.active with | some a => [a.buffer] | none => []),
       (match sinkQ.pending with
        | some p => some ⟨p.props, ⟨true, false⟩, (0 : Int)⟩
        | none => none)) :=
  claim_C2.2.1 sinkQ ⟨5, [], 9⟩ 5 0 (by rfl) (by rfl)

/-- C3: over every sequence of `submitFrame` and `onCommitComplete`
operations each of the three slots holds at most one transaction, and a
pending transaction is promoted to queued only when queued is empty: a
`submitFrame` arriving while queued is occupied leaves queued untouched
(the frame parks in pending), and `requestComplete` promotes pending only
after its first phase has vacated the queued slot (the resulting state is
exactly `queuePending` applied to the `completeQueued` intermediate state,
whose queued slot is always empty). -/
theorem claim_C3 :
    (∀ (s : KMSSink) (ops : List Op),
       slotCount (runOps s ops).pending ≤ 1 ∧
       slotCount (runOps s ops).queued ≤ 1 ∧
       slotCount (runOps s ops).active ≤ 1) ∧
    (∀ (s : KMSSink) (b : Nat) (r : Int),
       s.queued.isSome = true → ((consumeBuffer s b r).2.1).queued = s.queued) ∧
    (∀ s : KMSSink, (completeQueued s).1.queued = none) ∧
    (∀ (s : KMSSink) (rid : Nat) (r : Int) out,
       requestComplete s rid r = some out →
       out.1 = (queuePending (completeQueued s).1 r).1) := by
  have hcount : ∀ o : Option KMSRequest, slotCount o ≤ 1 := by
    intro o; cases o <;> simp [slotCount]
  refine ⟨fun s ops => ⟨hcount _, hcount _, hcount _⟩, ?_, fun s => rfl, ?_⟩
  · intro s b r hq
    unfold consumeBuffer
    by_cases hp : s.pending.isSome
    · simp [hp]
    · cases hb : lookupBuffer s.buffers b with
      | none => simp [hp, hb]
      | some fbId =>
        cases hQ : s.queued with
        | none => rw [hQ] at hq; cases hq
        | some q => simp [hp, hb, hQ]
  · intro s rid r out h
    unfold requestComplete at h
    cases hq : s.queued with
    | none => rw [hq] at h; cases h
    | some q =>
      rw [hq] at h
      by_cases hr : q.reqId = rid
      · simp [hr] at h
        rw [← h]
      · simp [hr] at h

/-- Witness for C3: a `submitFrame` against a sink with an occupied queued
slot leaves queued untouched, and a completion on the same sink yields the
two-phase promotion state. -/
theorem claim_C3_witness :
    ((consumeBuffer sinkQ 7 0).2.1).queued = sinkQ.queued ∧
    (stepOp sinkQ (Op.complete 5 0)) = (queuePending (completeQueued sinkQ).1 0).1 :=
  ⟨claim_C3.2.1 sinkQ 7 0 (by rfl),
   claim_C3.2.2.2 sinkQ 5 0 _ (by rfl)⟩

/-- The plane scan returns the head of the ordered candidate list. -/
theorem findInPlanes_eq (fmt xfmt : Nat) (crtc : Crtc) :
    ∀ ps : List Plane,
      findInPlanes fmt xfmt crtc ps = (planeCands fmt xfmt crtc ps).head?
  | [] => rfl
  | p :: ps => by
    by_cases h1 : p.planeType = PlaneType.primary
    · by_cases h2 : supportsFormat p fmt
      · simp [findInPlanes, planeCands, h1, h2]
      · by_cases h3 : supportsFormat p xfmt
        · simp [findInPlanes, planeCands, h1, h2, h3]
        · simp [findInPlanes, planeCands, h1, h2, h3,
                findInPlanes_eq fmt xfmt crtc ps]
    · simp [findInPlanes, planeCands, h1, findInPlanes_eq fmt xfmt crtc ps]

/-- The CRTC scan returns the head of the ordered candidate list. -/
theorem findInCrtcs_eq (fmt xfmt : Nat) :
    ∀ cs : List Crtc, findInCrtcs fmt xfmt cs = (crtcCands fmt xfmt cs).head?
  | [] => rfl
  | c :: cs => by
    cases h : planeCands fmt xfmt c c.planes with
    | nil =>
      simp [findInCrtcs, crtcCands, findInPlanes_eq, h, findInCrtcs_eq fmt xfmt cs]
    | cons x xs =>
      simp [findInCrtcs, crtcCands, findInPlanes_eq, h]

/-- The encoder scan returns the head of the ordered candidate list. -/
theorem findInEncoders_eq (fmt xfmt : Nat) :
    ∀ es : List Encoder,
      findInEncoders fmt xfmt es = (encoderCands fmt xfmt es).head?
  | [] => rfl
  | e :: es => by
    cases h : crtcCands fmt xfmt e.possibleCrtcs with
    | nil =>
      simp [findInEncoders, encoderCands, findInCrtcs_eq, h,
            findInEncoders_eq fmt xfmt es]
    | cons x xs =>
      simp [findInEncoders, encoderCands, findInCrtcs_eq, h]

/-- Every candidate of a plane scan is a primary plane that accepts its
selected format, which is the requested one, or the fallback when the plane
rejects the requested one. -/
theorem planeCands_mem (fmt xfmt : Nat) (crtc : Crtc) :
    ∀ ps : List Plane, ∀ r ∈ planeCands fmt xfmt crtc ps,
      r.2.1.planeType = PlaneType.primary ∧
      ((supportsFormat r.2.1 fmt = true ∧ r.2.2 = fmt) ∨
       (supportsFormat r.2.1 fmt = false ∧ supportsFormat r.2.1 xfmt = true ∧
        r.2.2 = xfmt))
  | [] => by intro r hr; cases hr
  | p :: ps => by
    intro r hr
    by_cases h1 : p.planeType = PlaneType.primary
    · by_cases h2 : supportsFormat p fmt
      · rw [planeCands, if_pos h1, if_pos h2] at hr
        rcases List.mem_cons.mp hr with h | h
        · subst h; exact ⟨h1, Or.inl ⟨h2, rfl⟩⟩
        · exact planeCands_mem fmt xfmt crtc ps r h
      · by_cases h3 : supportsFormat p xfmt
        · rw [planeCands, if_pos h1, if_neg h2, if_pos h3] at hr
          rcases List.mem_cons.mp hr with h | h
          · subst h
            exact ⟨h1, Or.inr ⟨Bool.not_eq_true _ ▸ Bool.of_not_eq_true h2, h3, rfl⟩⟩
          · exact planeCands_mem fmt xfmt crtc ps r h
        · rw [planeCands, if_pos h1, if_neg h2, if_neg h3] at hr
          exact planeCands_mem fmt xfmt crtc ps r hr
    · rw [planeCands, if_neg h1] at hr
      exact planeCands_mem fmt xfmt crtc ps r hr

/-- Every candidate of a CRTC scan satisfies the plane-scan property. -/
theorem crtcCands_mem (fmt xfmt : Nat) :
    ∀ cs : List Crtc, ∀ r ∈ crtcCands fmt xfmt cs,
      r.2.1.planeType = PlaneType.primary ∧
      ((supportsFormat r.2.1 fmt = true ∧ r.2.2 = fmt) ∨
       (supportsFormat r.2.1 fmt = false ∧ supportsFormat r.2.1 xfmt = true ∧
        r.2.2 = xfmt))
  | [] => by intro r hr; cases hr
  | c :: cs => by
    intro r hr
    rcases List.mem_append.mp hr with h | h
    · exact planeCands_mem fmt xfmt c c.planes r h
    · exact crtcCands_mem fmt xfmt cs r h

/-- Every candidate of an encoder scan satisfies the plane-scan property. -/
theorem encoderCands_mem (fmt xfmt : Nat) :
    ∀ es : List Encoder, ∀ r ∈ encoderCands fmt xfmt es,
      r.2.1.planeType = PlaneType.primary ∧
      ((supportsFormat r.2.1 fmt = true ∧ r.2.2 = fmt) ∨
       (supportsFormat r.2.1 fmt = false ∧ supportsFormat r.2.1 xfmt = true ∧
        r.2.2 = xfmt))
  | [] => by intro r hr; cases hr
  | e :: es => by
    intro r hr
    rcases List.mem_append.mp hr with h | h
    · exact crtcCands_mem fmt xfmt e.possibleCrtcs r h
    · exact encoderCands_mem fmt xfmt es r h

/-- C5: `configurePipeline` selects the first satisfying (crtc, plane,
format) triple in encoder/CRTC/plane enumeration order (the head of the
ordered candidate list); every candidate is a primary plane — non-primary
planes are never candidates — whose selected format is the requested one,
or the fallback when and only when the plane rejects the requested one; and
the search fails with `-EPIPE` exactly when no plane/format combination
satisfies the request. -/
theorem claim_C5 (conn : Connector) (format : Nat) :
    (configurePipeline conn format =
       match (allCands conn format).head? with
       | some r => Except.ok r
       | none => Except.error (-EPIPE)) ∧
    (∀ r ∈ allCands conn format,
       r.2.1.planeType = PlaneType.primary ∧
       ((supportsFormat r.2.1 format = true ∧ r.2.2 = format) ∨
        (supportsFormat r.2.1 format = false ∧
         supportsFormat r.2.1 (xFormat format) = true ∧
         r.2.2 = xFormat format))) ∧
    (configurePipeline conn format = Except.error (-EPIPE) ↔
       allCands conn format = []) := by
  refine ⟨?_, encoderCands_mem format (xFormat format) conn.encoders, ?_⟩
  · unfold configurePipeline allCands
    rw [findInEncoders_eq]
  · unfold configurePipeline allCands
    rw [findInEncoders_eq]
    cases h : (encoderCands format (xFormat format) conn.encoders).head? with
    | none => simpa using List.head?_eq_none_iff.mp h
    | some r =>
      constructor
      · intro hcontra
        simp at hcontra
      · intro hnil
        rw [hnil] at h; cases h

/-- Witness for C5: the single candidate of the concrete topology (the
primary plane accepting `ARGB8888` via its `XRGB8888` fallback) satisfies
the candidate property. -/
theorem claim_C5_witness :
    plane0.planeType = PlaneType.primary ∧
    ((supportsFormat plane0 DRM_FORMAT_ARGB8888 = true ∧
      DRM_FORMAT_XRGB8888 = DRM_FORMAT_ARGB8888) ∨
     (supportsFormat plane0 DRM_FORMAT_ARGB8888 = false ∧
      supportsFormat plane0 (xFormat DRM_FORMAT_ARGB8888) = true ∧
      DRM_FORMAT_XRGB8888 = xFormat DRM_FORMAT_ARGB8888)) :=
  (claim_C5 conn0 DRM_FORMAT_ARGB8888).2.1 (crtc0, plane0, DRM_FORMAT_XRGB8888)
    (by decide)

/-- C6: the alpha-to-opaque fallback maps `ABGR8888` to `XBGR8888`,
`ARGB8888` to `XRGB8888`, `BGRA8888` to `BGRX8888` and `RGBA8888` to
`RGBX8888`; every other format has no fallback (the fallback stays the
invalid default-constructed format); and configuring `ARGB8888` at
1920x1080 against a plane supporting only `XRGB8888` with a 1920x1080 mode
succeeds with the format downgraded to `XRGB8888`. -/
theorem claim_C6 :
    xFormat DRM_FORMAT_ABGR8888 = DRM_FORMAT_XBGR8888 ∧
    xFormat DRM_FORMAT_ARGB8888 = DRM_FORMAT_XRGB8888 ∧
    xFormat DRM_FORMAT_BGRA8888 = DRM_FORMAT_BGRX8888 ∧
    xFormat DRM_FORMAT_RGBA8888 = DRM_FORMAT_RGBX8888 ∧
    (∀ f : Nat, f ≠ DRM_FORMAT_ABGR8888 → f ≠ DRM_FORMAT_ARGB8888 →
       f ≠ DRM_FORMAT_BGRA8888 → f ≠ DRM_FORMAT_RGBA8888 →
       xFormat f = invalidFormat) ∧
    configure conn0 DRM_FORMAT_ARGB8888 1920 1080 7680 =
      Except.ok ⟨crtc0, plane0, DRM_FORMAT_XRGB8888, mode0, 1920, 1080, 7680⟩ := by
  refine ⟨by decide, by decide, by decide, by decide, ?_, by rfl⟩
  intro f h1 h2 h3 h4
  unfold xFormat
  simp [h1, h2, h3, h4]

/-- Witness for C6: `XRGB8888` carries no alpha channel, so it has no
fallback. -/
theorem claim_C6_witness : xFormat DRM_FORMAT_XRGB8888 = invalidFormat :=
  claim_C6.2.2.2.2.1 DRM_FORMAT_XRGB8888 (by decide) (by decide) (by decide)
    (by decide)

/-- C7: a successful `configure` binds a mode whose (width, height) equal
the requested frame size exactly (the first such mode in connector order);
the matching predicate ignores the refresh rate entirely; and when the
pipeline search succeeds but no mode has an equal resolution, `configure`
fails with `-EINVAL` (the spec's `PipelineNotFound` condition for the mode
step). -/
theorem claim_C7 (conn : Connector) (format w h stride : Nat) :
    (∀ cfg, configure conn format w h stride = Except.ok cfg →
       cfg.mode.hdisplay = w ∧ cfg.mode.vdisplay = h ∧
       conn.modes.find? (modeMatches w h) = some cfg.mode) ∧
    (∀ (m : Mode) (rr : Nat),
       modeMatches w h { m with vrefresh := rr } = modeMatches w h m) ∧
    (∀ t, configurePipeline conn format = Except.ok t →
       conn.modes.find? (modeMatches w h) = none →
       configure conn format w h stride = Except.error (-EINVAL)) := by
  refine ⟨?_, fun m rr => rfl, ?_⟩
  · intro cfg hc
    unfold configure at hc
    cases hcp : configurePipeline conn format with
    | error e => rw [hcp] at hc; cases hc
    | ok t =>
      obtain ⟨c, p, f⟩ := t
      rw [hcp] at hc
      cases hm : conn.modes.find? (modeMatches w h) with
      | none => rw [hm] at hc; cases hc
      | some m =>
        rw [hm] at hc
        cases hc
        have hmatch := List.find?_some hm
        simp [modeMatches] at hmatch
        exact ⟨hmatch.1, hmatch.2, rfl⟩
  · intro t hcp hm
    obtain ⟨c, p, f⟩ := t
    unfold configure
    rw [hcp, hm]

/-- Witness for C7: the concrete connector configured at its exact mode
resolution, and the same connector rejected at 1280x720 with `-EINVAL`. -/
theorem claim_C7_witness :
    (mode0.hdisplay = 1920 ∧ mode0.vdisplay = 1080 ∧
     conn0.modes.find? (modeMatches 1920 1080) = some mode0) ∧
    configure conn0 DRM_FORMAT_ARGB8888 1280 720 5120 =
      Except.error (-EINVAL) :=
  ⟨(claim_C7 conn0 DRM_FORMAT_ARGB8888 1920 1080 7680).1
     ⟨crtc0, plane0, DRM_FORMAT_XRGB8888, mode0, 1920, 1080, 7680⟩ (by rfl),
   (claim_C7 conn0 DRM_FORMAT_ARGB8888 1280 720 5120).2.2
     (crtc0, plane0, DRM_FORMAT_XRGB8888) (by rfl) (by rfl)⟩

end KmsSink
